import Mathlib

/-!
Verification of the Telegram automation bot (`src/main.py`) against its
specification.  The Python source is shallowly embedded: each handler
becomes a pure function from the mutable runtime state (the `AUTO_FORWARD`
flag and the `BOT_STATS` counters) to a new state together with the list
of outbound side effects it performs, in order.  External library calls
(Telegram sends, `re.search`, `random.choice`, disk writes) are modelled
explicitly: sends become `Effect` values, the regex matcher is a parameter,
the random draw is an arbitrary index reduced modulo the reply-set size,
and `download_to_drive` becomes a small file-system trace.
-/

namespace TgBot

/-- Maximum accepted document size, from `MAX_FILE_SIZE = 20 * 1024 * 1024`. -/
def MAX_FILE_SIZE : Nat := 20 * 1024 * 1024

/-- Outbound side effects a handler can perform, in program order:
`replyText` is `update.message.reply_text`, `sendPhoto`/`sendDocument` are
`context.bot.send_photo`/`send_document` (forwarding by remote file id),
`writeFile` is `file.download_to_drive` at the given path. -/
inductive Effect where
  | replyText (text : String)
  | sendPhoto (chatId : Nat) (fileId : String) (caption : String)
  | sendDocument (chatId : Nat) (fileId : String) (caption : String)
  | writeFile (path : String)
  deriving DecidableEq

/-- The mutable runtime state: the module-level `AUTO_FORWARD` flag and the
`BOT_STATS` dictionary with its `photos` and `documents` counters. -/
structure BotState where
  auto_forward : Bool
  photos : Nat
  documents : Nat
  deriving DecidableEq

/-- The character class `[\\/]` of the first `re.sub` in `sanitize_filename`:
path-separator characters. -/
def isSep (c : Char) : Bool := c == '\\' || c == '/'

/-- The allow-set `[A-Za-z0-9_.\-() ]` of the second `re.sub` in
`sanitize_filename` (its complement is stripped). -/
def allowedChar (c : Char) : Bool :=
  c.isAlpha || c.isDigit || c == '_' || c == '.' || c == '-' ||
    c == '(' || c == ')' || c == ' '

/-- `sanitize_filename` from `main.py`: replace each path separator by an
underscore (`re.sub(r"[\\/]", "_", name)`), drop every character outside the
allow-set (`re.sub(r"[^A-Za-z0-9_.\-() ]+", "", name)`), then truncate to the
first 200 characters (`name[:200]`). -/
def sanitize_filename (name : String) : String :=
  String.mk ((((name.data.map fun c => if isSep c then '_' else c).filter
    allowedChar)).take 200)

/-- `is_admin` from `main.py`: `OWNER_ID is not None and user_id == OWNER_ID`.
The optional configured admin identity `OWNER_ID` is `none` when unset. -/
def is_admin (owner : Option Nat) (user_id : Nat) : Bool :=
  match owner with
  | none => false
  | some o => user_id == o

/-- Python truthiness of `OWNER_ID` as used in `if OWNER_ID and AUTO_FORWARD:`:
`None` is falsy, and so is the integer `0`. -/
def ownerTruthy : Option Nat → Bool
  | none => false
  | some o => o != 0

/-- Python `str.lower()` as applied once at the top of `keyword_reply`
(ASCII case mapping suffices for the matching claims). -/
def lower (s : String) : String := String.mk (s.data.map Char.toLower)

/-- The `for pattern, replies in KEYWORDS.items()` loop of `keyword_reply`:
the first pattern (under the matcher `m`, standing for `re.search`) that
matches the already-lowered text `t` wins and later entries are not
examined; `random.choice(replies)` is modelled by an arbitrary draw index
`pick` reduced modulo the size of the reply set. -/
def keyword_loop (m : String → String → Bool) (t : String) (pick : Nat) :
    List (String × List String) → Option String
  | [] => none
  | (p, replies) :: rest =>
    if m p t then replies.get? (pick % replies.length)
    else keyword_loop m t pick rest

/-- `keyword_reply` from `main.py`: lower-case the input once
(`text = (update.message.text or "").lower()`), then run the first-match
loop over the keyword table in its configured order.  Returns the reply
text sent, or `none` when no pattern matches (the loop falls through and
the handler sends nothing). -/
def keyword_reply (m : String → String → Bool)
    (table : List (String × List String)) (text : String) (pick : Nat) :
    Option String :=
  keyword_loop m (lower text) pick table

/-- A concrete matcher: `re.search` restricted to literal patterns, i.e.
substring occurrence anywhere in the text.  Used to instantiate witnesses. -/
def isPrefixL : List Char → List Char → Bool
  | [], _ => true
  | _ :: _, [] => false
  | a :: as, b :: bs => a == b && isPrefixL as bs

/-- Substring occurrence over character lists, scanning every suffix. -/
def containsL (p : List Char) : List Char → Bool
  | [] => isPrefixL p []
  | b :: bs => isPrefixL p (b :: bs) || containsL p bs

/-- `re.search pattern text` for a literal (regex-free) pattern: the pattern
occurs as a contiguous substring anywhere in the text. -/
def re_search (p t : String) : Bool := containsL p.data t.data

/-- A photo update as consumed by `handle_photo`: the sender id, the
`photo.file_id` used for forwarding, and the `file.file_id` returned by
`photo.get_file()` and used in the stored filename. -/
structure PhotoMsg where
  senderId : Nat
  fileId : String
  dlFileId : String
  deriving DecidableEq

/-- A document update as consumed by `handle_document`: sender id, declared
`doc.file_name`, declared `doc.file_size`, and `doc.file_id` for forwarding. -/
structure DocumentMsg where
  senderId : Nat
  fileName : String
  fileSize : Nat
  fileId : String
  deriving DecidableEq

/-- The stored photo name: `sanitize_filename(f"photo_{user.id}_{file.file_id}.jpg")`. -/
def photoFilename (m : PhotoMsg) : String :=
  sanitize_filename ("photo_" ++ toString m.senderId ++ "_" ++ m.dlFileId ++ ".jpg")

/-- The stored document name: `sanitize_filename(f"{user.id}_{doc.file_name}")`. -/
def documentFilename (m : DocumentMsg) : String :=
  sanitize_filename (toString m.senderId ++ "_" ++ m.fileName)

/-- `handle_photo` from `main.py`: download to `PHOTOS_DIR / filename`,
increment `BOT_STATS["photos"]`, forward the photo by its remote id to
`OWNER_ID` when `OWNER_ID and AUTO_FORWARD` is truthy, then confirm to the
sender.  Effects are listed in program order. -/
def handle_photo (owner : Option Nat) (s : BotState) (m : PhotoMsg) :
    BotState × List Effect :=
  let filename := photoFilename m
  let s' := { s with photos := s.photos + 1 }
  let fwd := if ownerTruthy owner && s.auto_forward then
      [Effect.sendPhoto (owner.getD 0) m.fileId
        ("📸 Photo from " ++ toString m.senderId)]
    else []
  (s', Effect.writeFile ("downloads/photos/" ++ filename) ::
    (fwd ++ [Effect.replyText ("📸 Saved as `" ++ filename ++ "`")]))

/-- `handle_document` from `main.py`: reject with "File too large." when
`doc.file_size > MAX_FILE_SIZE` (before any download, write, count or
forward), otherwise download to `FILES_DIR / filename`, increment
`BOT_STATS["documents"]`, forward by remote id under the same truthiness
condition as photos, and confirm to the sender. -/
def handle_document (owner : Option Nat) (s : BotState) (m : DocumentMsg) :
    BotState × List Effect :=
  if m.fileSize > MAX_FILE_SIZE then
    (s, [Effect.replyText "⚠️ File too large."])
  else
    let filename := documentFilename m
    let s' := { s with documents := s.documents + 1 }
    let fwd := if ownerTruthy owner && s.auto_forward then
        [Effect.sendDocument (owner.getD 0) m.fileId
          ("📄 File from " ++ toString m.senderId)]
      else []
    (s', Effect.writeFile ("downloads/files/" ++ filename) ::
      (fwd ++ [Effect.replyText ("📄 Saved `" ++ filename ++ "`")]))

/-- The rejection sent by the `admin_only` decorator. -/
def adminRejection : Effect := Effect.replyText "❌ Admin only command."

/-- The `admin_only` decorator: if `is_admin(update.effective_user.id)` is
false, reply "Admin only command." and return without invoking the wrapped
handler; otherwise run the wrapped handler. -/
def admin_only (f : BotState → BotState × List Effect)
    (owner : Option Nat) (senderId : Nat) (s : BotState) :
    BotState × List Effect :=
  if is_admin owner senderId then f s else (s, [adminRejection])

/-- The body of `toggleforward` under the decorator: negate the global
`AUTO_FORWARD` and report the new value. -/
def toggleforward_body (s : BotState) : BotState × List Effect :=
  let s' := { s with auto_forward := !s.auto_forward }
  (s', [Effect.replyText
    (if s'.auto_forward then "Auto-forward ✅ ON" else "Auto-forward ❌ OFF")])

/-- `toggleforward` from `main.py`: the toggle body wrapped in `admin_only`. -/
def toggleforward (owner : Option Nat) (senderId : Nat) (s : BotState) :
    BotState × List Effect :=
  admin_only toggleforward_body owner senderId s

/-- The body of `getstats` under the decorator: report the counters. -/
def getstats_body (s : BotState) : BotState × List Effect :=
  (s, [Effect.replyText ("📊 Stats\nPhotos: " ++ toString s.photos ++
    "\nFiles: " ++ toString s.documents)])

/-- `getstats` from `main.py`: the stats body wrapped in `admin_only`. -/
def getstats (owner : Option Nat) (senderId : Nat) (s : BotState) :
    BotState × List Effect :=
  admin_only getstats_body owner senderId s

/-- `n` successive invocations of the `/toggleforward` command by `sender`,
each going through the `admin_only` gate. -/
def toggleN (owner : Option Nat) (sender : Nat) : Nat → BotState → BotState
  | 0, s => s
  | n + 1, s => toggleN owner sender n (toggleforward owner sender s).1

/-- An effect is a forward to the operator (a `send_photo`/`send_document`
toward `OWNER_ID`). -/
def isForward : Effect → Bool
  | Effect.sendPhoto _ _ _ => true
  | Effect.sendDocument _ _ _ => true
  | _ => false

/-- File-system operations observable during a download: the single write
of a fully buffered payload into a path, or a rename. -/
inductive FsOp where
  | writeBytes (path : String)
  | rename (src dst : String)
  deriving DecidableEq

/-- `File.download_to_drive(path)` of python-telegram-bot: the transfer
first buffers the entire remote payload in memory (`request.retrieve`
returns the complete bytes), and only after the transfer has completed does
it perform one `write_bytes` at `path`.  A connection dropped mid-transfer
raises inside the retrieval, before the destination is ever opened, so the
file-system trace of an interrupted download is empty; a completed one is
the single full write. -/
def download_to_drive (transferCompleted : Bool) (path : String) : List FsOp :=
  if transferCompleted then [FsOp.writeBytes path] else []

/-- The final path `PHOTOS_DIR / filename` that `handle_photo` downloads to. -/
def photoFinalPath (m : PhotoMsg) : String :=
  "downloads/photos/" ++ photoFilename m

/-- The final path `FILES_DIR / filename` that `handle_document` downloads to. -/
def documentFinalPath (m : DocumentMsg) : String :=
  "downloads/files/" ++ documentFilename m

/-- The file-system trace of `handle_photo`'s download step, given whether
the transfer ran to completion. -/
def handle_photo_fs (transferCompleted : Bool) (m : PhotoMsg) : List FsOp :=
  download_to_drive transferCompleted (photoFinalPath m)

/-- The file-system trace of `handle_document`'s download step: nothing at
all for an over-size document (rejected before the download), otherwise
the trace of `download_to_drive` at the final path. -/
def handle_document_fs (transferCompleted : Bool) (m : DocumentMsg) :
    List FsOp :=
  if m.fileSize > MAX_FILE_SIZE then []
  else download_to_drive transferCompleted (documentFinalPath m)

/-- A reader sees a file (complete or not) at `path` after the operations
in `trace`: some write targeted that path. -/
def fileVisibleAt (trace : List FsOp) (path : String) : Bool :=
  trace.contains (FsOp.writeBytes path)

/-- Tags for the handler functions defined in `main.py`, registered or not. -/
inductive HandlerTag where
  | start
  | help_command
  | menu
  | getmyid
  | toggleforward
  | getstats
  | handle_buttons
  | handle_photo
  | handle_document
  | keyword_reply
  | handle_message
  deriving DecidableEq

/-- The category of an inbound update, as the dispatcher's filters see it. -/
inductive UpdateKind where
  | command (name : String)
  | callbackQuery
  | photo
  | document
  | plainText
  deriving DecidableEq

/-- The filters used in the `app.add_handler` calls of `main()`. -/
inductive HFilter where
  | cmd (name : String)
  | callbacks
  | photoF
  | documentF
  | textNotCommand
  deriving DecidableEq

/-- Whether a registration filter accepts an update: `CommandHandler(n, _)`
accepts the command `n`, `CallbackQueryHandler` accepts button callbacks,
`filters.PHOTO` photos, `filters.Document.ALL` documents, and
`filters.TEXT & ~filters.COMMAND` plain (non-command) text. -/
def matchesFilter : HFilter → UpdateKind → Bool
  | HFilter.cmd n, UpdateKind.command n2 => n == n2
  | HFilter.callbacks, UpdateKind.callbackQuery => true
  | HFilter.photoF, UpdateKind.photo => true
  | HFilter.documentF, UpdateKind.document => true
  | HFilter.textNotCommand, UpdateKind.plainText => true
  | _, _ => false

/-- The handler registrations performed in `main()`, in order.  All are in
dispatcher group 0, so the first registration whose filter accepts an update
handles it.  `handle_message` is defined in the source but never registered. -/
def registered_handlers : List (HFilter × HandlerTag) :=
  [ (HFilter.cmd "start", HandlerTag.start),
    (HFilter.cmd "help", HandlerTag.help_command),
    (HFilter.cmd "menu", HandlerTag.menu),
    (HFilter.cmd "getmyid", HandlerTag.getmyid),
    (HFilter.cmd "toggleforward", HandlerTag.toggleforward),
    (HFilter.cmd "getstats", HandlerTag.getstats),
    (HFilter.callbacks, HandlerTag.handle_buttons),
    (HFilter.photoF, HandlerTag.handle_photo),
    (HFilter.documentF, HandlerTag.handle_document),
    (HFilter.textNotCommand, HandlerTag.keyword_reply) ]

/-- The dispatcher: the first registered handler whose filter accepts the
update, or `none` (the update is silently dropped). -/
def dispatch (u : UpdateKind) : Option HandlerTag :=
  (registered_handlers.find? fun h => matchesFilter h.1 u).map Prod.snd

/-- The outbound effects of `keyword_reply` on a plain-text update: one
reply on a match, and nothing at all when no pattern matches. -/
def keyword_reply_effects (m : String → String → Bool)
    (table : List (String × List String)) (text : String) (pick : Nat) :
    List Effect :=
  match keyword_reply m table text pick with
  | some r => [Effect.replyText r]
  | none => []

/-- The atomic steps of the upload handlers' bodies under the asyncio event
loop.  Code between `await` points runs without interleaving, and
`BOT_STATS["photos"] += 1` / `BOT_STATS["documents"] += 1` contain no
`await`, so each counter's read-modify-write is a single atomic step; the
download, forward and reply are the suspension points. -/
inductive Step where
  | awaitDownload
  | incPhotos
  | incDocuments
  | awaitForward
  | awaitReply
  deriving DecidableEq

/-- The step script of one successful photo upload, in program order. -/
def photoSteps : List Step := [Step.awaitDownload, Step.incPhotos,
  Step.awaitForward, Step.awaitReply]

/-- The step script of one successful document upload, in program order. -/
def documentSteps : List Step := [Step.awaitDownload, Step.incDocuments,
  Step.awaitForward, Step.awaitReply]

/-- Effect of one atomic step on the shared `BOT_STATS` counters. -/
def execStep (s : BotState) : Step → BotState
  | Step.incPhotos => { s with photos := s.photos + 1 }
  | Step.incDocuments => { s with documents := s.documents + 1 }
  | _ => s

/-- Run a schedule (an interleaving of the in-flight handlers' steps)
against the shared state. -/
def execSteps (sched : List Step) (s : BotState) : BotState :=
  sched.foldl execStep s

/-- C3: for every input string, the sanitized filename has length at most
200 and every remaining character lies in the allow-set — in particular it
is neither a forward slash nor a backslash, since separators are rewritten
to underscores before the strip and neither separator is in the allow-set. -/
theorem sanitize_filename_safe (name : String) :
    (sanitize_filename name).length ≤ 200 ∧
    ((sanitize_filename name).data.all fun c =>
      allowedChar c && !(c == '/') && !(c == '\\')) = true := by
  constructor
  · show (List.take 200 _).length ≤ 200
    exact List.length_take_le 200 _
  · rw [List.all_eq_true]
    intro c hc
    have hmem : c ∈ List.filter allowedChar
        ((name.data.map fun x => if isSep x then '_' else x)) :=
      List.mem_of_mem_take hc
    have hall : allowedChar c = true := (List.mem_filter.mp hmem).2
    have h1 : (c == '/') = false := by
      rcases hbe : c == '/' with _ | _
      · rfl
      · rw [eq_of_beq hbe] at hall; exact absurd hall (by decide)
    have h2 : (c == '\\') = false := by
      rcases hbe : c == '\\' with _ | _
      · rfl
      · rw [eq_of_beq hbe] at hall; exact absurd hall (by decide)
    rw [hall, h1, h2]
    rfl

/-- C5: `is_admin` is a pure function of the configured identity and the
sender: with no configured identity it is false for every id, and with a
configured identity it is true exactly for the equal id. -/
theorem is_admin_characterization :
    (∀ uid : Nat, is_admin none uid = false) ∧
    (∀ o uid : Nat, (is_admin (some o) uid = true ↔ uid = o)) := by
  refine ⟨fun _ => rfl, fun o uid => ?_⟩
  simp [is_admin]

/-- Witness for C5 at concrete identities. -/
theorem is_admin_characterization_witness :
    is_admin none 7 = false ∧ is_admin (some 42) 42 = true :=
  ⟨is_admin_characterization.1 7,
    (is_admin_characterization.2 42 42).mpr rfl⟩

/-- C2: when the declared document size exceeds `MAX_FILE_SIZE` (20 MiB),
`handle_document` returns the state unchanged — no file write, no counter
increment, no forward — and its only effect is the too-large rejection
reply to the sender. -/
theorem handle_document_too_large (owner : Option Nat) (s : BotState)
    (d : DocumentMsg) (h : d.fileSize > MAX_FILE_SIZE) :
    handle_document owner s d = (s, [Effect.replyText "⚠️ File too large."]) := by
  unfold handle_document
  rw [if_pos h]

/-- Witness for C2: a 20 MiB + 1 byte document is rejected without any
state change or write. -/
theorem handle_document_too_large_witness :
    handle_document (some 42) ⟨true, 0, 0⟩ ⟨7, "big.bin", 20971521, "fid"⟩ =
      (⟨true, 0, 0⟩, [Effect.replyText "⚠️ File too large."]) :=
  handle_document_too_large (some 42) ⟨true, 0, 0⟩
    ⟨7, "big.bin", 20971521, "fid"⟩ (by decide)

/-- C4: when `is_admin` is false for the sender, the `admin_only` gate
returns the admin-only rejection without invoking the wrapped handler, for
any handler; in particular `/toggleforward` and `/getstats` leave the
runtime state unchanged and reply only with the rejection. -/
theorem admin_gate_blocks (owner : Option Nat) (sender : Nat) (s : BotState)
    (h : is_admin owner sender = false) :
    toggleforward owner sender s = (s, [adminRejection]) ∧
    getstats owner sender s = (s, [adminRejection]) ∧
    ∀ f : BotState → BotState × List Effect,
      admin_only f owner sender s = (s, [adminRejection]) := by
  have hgen : ∀ f : BotState → BotState × List Effect,
      admin_only f owner sender s = (s, [adminRejection]) := by
    intro f
    unfold admin_only
    rw [h]
    rfl
  exact ⟨hgen _, hgen _, hgen⟩

/-- Witness for C4: a non-admin sender is rejected by both privileged
commands and the state is untouched. -/
theorem admin_gate_blocks_witness :
    toggleforward none 5 ⟨true, 2, 3⟩ = (⟨true, 2, 3⟩, [adminRejection]) ∧
    getstats none 5 ⟨true, 2, 3⟩ = (⟨true, 2, 3⟩, [adminRejection]) :=
  ⟨(admin_gate_blocks none 5 ⟨true, 2, 3⟩ rfl).1,
    (admin_gate_blocks none 5 ⟨true, 2, 3⟩ rfl).2.1⟩

/-- C1: for any matcher, the keyword loop lower-cases the input once and
replies from the first table entry whose pattern matches the lowered text:
whenever every entry before `(p, replies)` fails to match and `p` matches,
the reply is drawn from `replies` — independent of the later entries, which
are not examined — and when `replies` is a singleton the returned reply is
always that single string, for every random draw. -/
theorem keyword_first_match (m : String → String → Bool)
    (pre rest : List (String × List String)) (p : String)
    (replies : List String) (text : String) (pick : Nat)
    (hpre : ∀ e ∈ pre, m e.1 (lower text) = false)
    (hp : m p (lower text) = true) :
    keyword_reply m (pre ++ (p, replies) :: rest) text pick =
      replies.get? (pick % replies.length) ∧
    ∀ r, replies = [r] →
      keyword_reply m (pre ++ (p, replies) :: rest) text pick = some r := by
  have hmain : keyword_reply m (pre ++ (p, replies) :: rest) text pick =
      replies.get? (pick % replies.length) := by
    induction pre with
    | nil =>
      simp [keyword_reply, keyword_loop, hp]
    | cons e t ih =>
      have he : m e.1 (lower text) = false := hpre e (by simp)
      unfold keyword_reply keyword_loop
      rw [List.cons_append]
      simp only [he, Bool.false_eq_true, if_false]
      exact ih fun x hx => hpre x (by simp [hx])
  refine ⟨hmain, ?_⟩
  rintro r rfl
  rw [hmain]
  rw [show [r].length = 1 from rfl, Nat.mod_one]
  rfl

/-- Witness for C1, the specification's own scenario: the table holds a
non-matching entry, then `hello`, then the also-matching `h`; on input
"Hello there" the `hello` entry wins under table order and its singleton
reply is returned for an arbitrary draw. -/
theorem keyword_first_match_witness :
    keyword_reply re_search
      ([("xyz", ["no"])] ++ ("hello", ["hi!"]) :: [("h", ["other"])])
      "Hello there" 5 = some "hi!" :=
  (keyword_first_match re_search [("xyz", ["no"])] [("h", ["other"])]
    "hello" ["hi!"] "Hello there" 5
    (by intro e he; simp at he; rw [he]; decide) (by decide)).2 "hi!" rfl

/-- C6 counterexample: the configured admin identity 0 is a configured
identity (`OWNER_ID is not None`, and `is_admin` accepts it), auto-forward
is enabled, and a photo upload is stored — yet no forward is attempted,
because `if OWNER_ID and AUTO_FORWARD:` treats the integer 0 as falsy.  The
claim as stated requires a forward here. -/
theorem forward_zero_admin_skipped :
    (some 0 : Option Nat).isSome = true ∧
    is_admin (some 0) 0 = true ∧
    (handle_photo (some 0) ⟨true, 0, 0⟩ ⟨7, "pfid", "pfid"⟩).1.photos = 1 ∧
    ((handle_photo (some 0) ⟨true, 0, 0⟩ ⟨7, "pfid", "pfid"⟩).2.any isForward)
      = false := by
  refine ⟨rfl, rfl, rfl, ?_⟩
  decide

/-- C6 (amended): for stored photos and stored documents alike, the forward
to the operator is skipped exactly when `OWNER_ID` is falsy (absent, or the
configured identity 0) or auto-forward is off at the time of the call; when
a nonzero identity is configured and the flag is on, a copy of the
already-uploaded remote object is sent by its remote id to the configured
admin with a caption identifying the sender. -/
theorem forward_gating (owner : Option Nat) (s : BotState) (pm : PhotoMsg)
    (dm : DocumentMsg) (hd : ¬ dm.fileSize > MAX_FILE_SIZE) :
    ((handle_photo owner s pm).2.any isForward
      = (ownerTruthy owner && s.auto_forward)) ∧
    ((handle_document owner s dm).2.any isForward
      = (ownerTruthy owner && s.auto_forward)) ∧
    (∀ o : Nat, owner = some o → o ≠ 0 → s.auto_forward = true →
      ((handle_photo owner s pm).2.contains
        (Effect.sendPhoto o pm.fileId
          ("📸 Photo from " ++ toString pm.senderId)) = true ∧
       (handle_document owner s dm).2.contains
        (Effect.sendDocument o dm.fileId
          ("📄 File from " ++ toString dm.senderId)) = true)) := by
  refine ⟨?_, ?_, ?_⟩
  · rcases hc : ownerTruthy owner && s.auto_forward with _ | _ <;>
      simp [handle_photo, hc, isForward]
  · rcases hc : ownerTruthy owner && s.auto_forward with _ | _ <;>
      simp [handle_document, hd, hc, isForward]
  · rintro o rfl ho hf
    constructor
    · simp [handle_photo, ownerTruthy, ho, hf, List.contains]
    · simp [handle_document, hd, ownerTruthy, ho, hf, List.contains]

/-- Witness for C6 at the specification's scenario: admin 42, forwarding
on, a photo and a 1 MiB document from sender 7; both forwards happen and
carry the remote ids and the sender-identifying captions. -/
theorem forward_gating_witness :
    ((handle_photo (some 42) ⟨true, 0, 0⟩ ⟨7, "pfid", "pfid"⟩).2.contains
      (Effect.sendPhoto 42 "pfid" ("📸 Photo from " ++ toString 7)) = true) ∧
    ((handle_document (some 42) ⟨true, 0, 0⟩
        ⟨7, "report.pdf", 1048576, "dfid"⟩).2.contains
      (Effect.sendDocument 42 "dfid" ("📄 File from " ++ toString 7)) = true) :=
  (forward_gating (some 42) ⟨true, 0, 0⟩ ⟨7, "pfid", "pfid"⟩
    ⟨7, "report.pdf", 1048576, "dfid"⟩ (by decide)).2.2 42 rfl
    (by decide) rfl

/-- When the sender passes the admin gate, one `/toggleforward` negates the
flag and leaves the counters alone. -/
theorem toggleforward_state (o sender : Nat) (s : BotState)
    (hadmin : is_admin (some o) sender = true) :
    (toggleforward (some o) sender s).1 =
      { s with auto_forward := !s.auto_forward } := by
  unfold toggleforward admin_only
  rw [hadmin]
  rfl

/-- The flag after `n` admin-gated toggles is the initial flag xor the
parity of `n`. -/
theorem toggleN_auto_forward (o sender : Nat)
    (hadmin : is_admin (some o) sender = true) :
    ∀ (n : Nat) (s : BotState), (toggleN (some o) sender n s).auto_forward =
      xor (decide (n % 2 = 1)) s.auto_forward := by
  intro n
  induction n with
  | zero => intro s; simp [toggleN]
  | succ k ih =>
    intro s
    unfold toggleN
    rw [ih, toggleforward_state o sender s hadmin]
    rcases Nat.mod_two_eq_zero_or_one k with hk | hk
    · rw [hk, show (k + 1) % 2 = 1 by omega]
      cases s.auto_forward <;> rfl
    · rw [hk, show (k + 1) % 2 = 0 by omega]
      cases s.auto_forward <;> rfl

/-- C7 counterexample: with the configured (and `is_admin`-accepted)
identity 0, one toggle from off turns the flag on, yet a stored photo is
still not forwarded — the claimed "skipped iff the flag is false" fails,
because the forward condition also requires a truthy `OWNER_ID`. -/
theorem toggle_zero_admin_counterexample :
    is_admin (some 0) 0 = true ∧
    (toggleN (some 0) 0 1 ⟨false, 0, 0⟩).auto_forward = true ∧
    ((handle_photo (some 0) (toggleN (some 0) 0 1 ⟨false, 0, 0⟩)
      ⟨7, "pfid", "pfid"⟩).2.any isForward) = false := by
  refine ⟨rfl, rfl, ?_⟩
  decide

/-- C7 (amended): the admin-gated toggle is an involution — two toggles
restore the whole state — and after any odd number of toggles the flag is
the negation of the original; provided the configured admin identity is
nonzero, forwarding of a stored photo is then skipped exactly when the
resulting flag is false (with an absent or zero identity forwarding is
always skipped). -/
theorem toggle_involution_forward (o sender : Nat) (s : BotState)
    (pm : PhotoMsg) (n : Nat) (hadmin : is_admin (some o) sender = true)
    (hodd : n % 2 = 1) (ho : o ≠ 0) :
    toggleN (some o) sender 2 s = s ∧
    (toggleN (some o) sender n s).auto_forward = !s.auto_forward ∧
    (((handle_photo (some o) (toggleN (some o) sender n s) pm).2.any isForward
        = false) ↔
      (toggleN (some o) sender n s).auto_forward = false) := by
  refine ⟨?_, ?_, ?_⟩
  · show toggleN (some o) sender 1 (toggleforward (some o) sender s).1 = s
    show toggleN (some o) sender 0
      (toggleforward (some o) sender
        (toggleforward (some o) sender s).1).1 = s
    rw [toggleN, toggleforward_state o sender s hadmin,
      toggleforward_state o sender _ hadmin]
    simp
  · rw [toggleN_auto_forward o sender hadmin n s, hodd]
    simp
  · have hany : ∀ t : BotState,
        (handle_photo (some o) t pm).2.any isForward
          = (ownerTruthy (some o) && t.auto_forward) := by
      intro t
      rcases hc : ownerTruthy (some o) && t.auto_forward with _ | _ <;>
        simp [handle_photo, hc, isForward]
    rw [hany]
    have hot : ownerTruthy (some o) = true := by simp [ownerTruthy, ho]
    rw [hot]
    rcases (toggleN (some o) sender n s).auto_forward with _ | _ <;> simp

/-- Witness for C7 at admin 42 toggling three times from off. -/
theorem toggle_involution_forward_witness :
    toggleN (some 42) 42 2 ⟨false, 1, 2⟩ = ⟨false, 1, 2⟩ ∧
    (toggleN (some 42) 42 3 ⟨false, 1, 2⟩).auto_forward = true :=
  ⟨(toggle_involution_forward 42 42 ⟨false, 1, 2⟩ ⟨7, "pfid", "pfid"⟩ 3
      rfl rfl (by decide)).1,
    (toggle_involution_forward 42 42 ⟨false, 1, 2⟩ ⟨7, "pfid", "pfid"⟩ 3
      rfl rfl (by decide)).2.1⟩

/-- Folding the step semantics adds to each counter exactly the number of
its atomic increment steps in the schedule. -/
theorem execSteps_count (sched : List Step) :
    ∀ s : BotState,
      (execSteps sched s).photos = s.photos + sched.count Step.incPhotos ∧
      (execSteps sched s).documents =
        s.documents + sched.count Step.incDocuments := by
  induction sched with
  | nil => intro s; exact ⟨rfl, rfl⟩
  | cons a l ih =>
    intro s
    refine ⟨?_, ?_⟩
    · show (execSteps l (execStep s a)).photos =
        s.photos + List.count Step.incPhotos (a :: l)
      rw [(ih (execStep s a)).1, List.count_cons]
      cases a
      all_goals simp [execStep]
      all_goals omega
    · show (execSteps l (execStep s a)).documents =
        s.documents + List.count Step.incDocuments (a :: l)
      rw [(ih (execStep s a)).2, List.count_cons]
      cases a
      all_goals simp [execStep]
      all_goals omega

/-- The number of occurrences of a step in `k` concatenated copies of a
script. -/
theorem count_flatten_replicate (a : Step) (scr : List Step) :
    ∀ k : Nat, (List.flatten (List.replicate k scr)).count a = k * scr.count a := by
  intro k
  induction k with
  | zero => simp
  | succ j ihj =>
    rw [List.replicate_succ, List.flatten_cons, List.count_append, ihj,
      Nat.succ_mul]
    omega

/-- C8: under the asyncio execution model — where each counter increment is
a single atomic step because `BOT_STATS["photos"] += 1` and
`BOT_STATS["documents"] += 1` contain no await — any interleaving of the
steps of `n` successful uploads of one category (any permutation of their
combined step lists) leaves that category's shared counter at exactly its
initial value plus `n`: no update is lost.  Stated for both categories:
photo schedules and the `photos` counter, document schedules and the
`documents` counter. -/
theorem concurrent_increments (n : Nat) (ps ds : List Step) (s0 : BotState)
    (hp : ps.Perm (List.flatten (List.replicate n photoSteps)))
    (hd : ds.Perm (List.flatten (List.replicate n documentSteps))) :
    (execSteps ps s0).photos = s0.photos + n ∧
    (execSteps ds s0).documents = s0.documents + n := by
  constructor
  · rw [(execSteps_count ps s0).1, hp.count_eq Step.incPhotos,
      count_flatten_replicate Step.incPhotos photoSteps n,
      show photoSteps.count Step.incPhotos = 1 from by decide]
    omega
  · rw [(execSteps_count ds s0).2, hd.count_eq Step.incDocuments,
      count_flatten_replicate Step.incDocuments documentSteps n,
      show documentSteps.count Step.incDocuments = 1 from by decide]
    omega

/-- Witness for C8: three photo uploads and three document uploads, each in
a concrete interleaved order. -/
theorem concurrent_increments_witness :
    (execSteps (List.flatten (List.replicate 3 photoSteps))
      ⟨true, 0, 0⟩).photos = 0 + 3 ∧
    (execSteps (List.flatten (List.replicate 3 documentSteps))
      ⟨true, 0, 0⟩).documents = 0 + 3 :=
  concurrent_increments 3 (List.flatten (List.replicate 3 photoSteps))
    (List.flatten (List.replicate 3 documentSteps)) ⟨true, 0, 0⟩
    (List.Perm.refl _) (List.Perm.refl _)

/-- C9: a download interrupted mid-transfer performs no file-system
operation at all — `download_to_drive` buffers the whole payload before its
single write — so no file, partial or otherwise, is ever visible at the
final path in the photos or files directory; the write appears at the final
name only on complete success.  Buffering the full payload and writing once
after the transfer completes is the code's atomic-visibility mechanism. -/
theorem interrupted_download_not_visible (pm : PhotoMsg) (dm : DocumentMsg) :
    handle_photo_fs false pm = [] ∧
    fileVisibleAt (handle_photo_fs false pm) (photoFinalPath pm) = false ∧
    fileVisibleAt (handle_document_fs false dm) (documentFinalPath dm)
      = false ∧
    handle_photo_fs true pm = [FsOp.writeBytes (photoFinalPath pm)] := by
  refine ⟨rfl, rfl, ?_, rfl⟩
  unfold handle_document_fs download_to_drive fileVisibleAt
  split
  · rfl
  · rfl

/-- The keyword loop sends nothing when no table entry matches the lowered
text. -/
theorem keyword_loop_none (m : String → String → Bool) (t : String)
    (pick : Nat) :
    ∀ table : List (String × List String),
      (∀ e ∈ table, m e.1 t = false) → keyword_loop m t pick table = none := by
  intro table
  induction table with
  | nil => intro _; rfl
  | cons e l ih =>
    intro h
    have he : m e.1 t = false := h e (by simp)
    unfold keyword_loop
    simp only [he, Bool.false_eq_true, if_false]
    exact ih fun x hx => h x (by simp [hx])

/-- C10: a plain (non-command) text update is dispatched to `keyword_reply`
(the only registered handler whose filter accepts it); when no pattern in
the table matches the lowered text — in particular for the empty table —
`keyword_reply` produces no outbound effect at all, and the
generic-acknowledgment `handle_message` handler is not among the
registrations, so an unmatched text yields no reply. -/
theorem unmatched_text_no_reply (m : String → String → Bool)
    (table : List (String × List String)) (text : String) (pick : Nat)
    (h : ∀ e ∈ table, m e.1 (lower text) = false) :
    dispatch UpdateKind.plainText = some HandlerTag.keyword_reply ∧
    keyword_reply_effects m table text pick = [] ∧
    (registered_handlers.all fun hh =>
      !(hh.2 == HandlerTag.handle_message)) = true := by
  refine ⟨rfl, ?_, by decide⟩
  unfold keyword_reply_effects keyword_reply
  rw [keyword_loop_none m (lower text) pick table h]

/-- Witness for C10: the text "zzz" matches neither entry of a concrete
table and produces no effects. -/
theorem unmatched_text_no_reply_witness :
    keyword_reply_effects re_search [("hi", ["x"]), ("bye", ["y"])] "zzz" 0
      = [] :=
  (unmatched_text_no_reply re_search [("hi", ["x"]), ("bye", ["y"])] "zzz" 0
    (by intro e he; simp at he; rcases he with he | he <;> rw [he] <;>
      decide)).2.1

end TgBot
